import Mathlib

/-!
# Verification of the go-backend-service HTTP template

A shallow embedding, in Lean 4, of the core of the `go-backend-service`
repository: configuration loading, the repository/service/handler layers,
the HTTP middleware chain (`TraceID`/`Tracing`, `Recovery`, `Logging`),
the server construction in `server.New`, and the process lifecycle in
`cmd/server/main.go`.  Go machine-level details are modelled explicitly:

* an environment is a total map from variable names to strings, where the
  empty string stands for "unset" (matching `os.Getenv`);
* `time.Duration` values are integers counting nanoseconds;
* a request context is a monotone sequence of cancellation observations
  (each `select { case <-ctx.Done() ... }` in the Go code reads the next
  observation), so a context that becomes cancelled between two
  checkpoints is representable;
* an HTTP response writer is a record of headers, a committed status code
  (first `WriteHeader` wins on the wire, as in `net/http`), and a body
  accumulated by `Write`; panics are modelled as an `Option String`
  escaping a handler.

The repository ships two near-identical module variants (a plain one and
an OpenTelemetry-enabled one); where they differ both are embedded.
-/

namespace GoBackend

/-! ## Environment and Go standard-library parsers -/

/-- A process environment, as observed through `os.Getenv`: unset
variables read as the empty string. -/
def Env : Type := String → String

/-- The environment with no variables set. -/
def emptyEnv : Env := fun _ => ""

/-- Embeds Go `strconv.ParseBool`: accepts exactly
`1, t, T, TRUE, true, True` and `0, f, F, FALSE, false, False`. -/
def parseBool (s : String) : Option Bool :=
  if s = "1" ∨ s = "t" ∨ s = "T" ∨ s = "TRUE" ∨ s = "true" ∨ s = "True" then
    some true
  else if s = "0" ∨ s = "f" ∨ s = "F" ∨ s = "FALSE" ∨ s = "false" ∨ s = "False" then
    some false
  else
    none

/-- Nanoseconds per unit, as in Go `time`'s `unitMap` used by
`time.ParseDuration`. -/
def durationUnit : String → Option Nat
  | "ns" => some 1
  | "us" => some 1000
  | "µs" => some 1000
  | "μs" => some 1000
  | "ms" => some 1000000
  | "s" => some 1000000000
  | "m" => some 60000000000
  | "h" => some 3600000000000
  | _ => none

/-- ASCII decimal digit test. -/
def isDigitChar (c : Char) : Bool := '0' ≤ c && c ≤ '9'

/-- Splits the longest leading run of decimal digits off a character list. -/
def takeDigits : List Char → List Char × List Char
  | [] => ([], [])
  | c :: cs =>
    if isDigitChar c then
      let p := takeDigits cs
      (c :: p.1, p.2)
    else
      ([], c :: cs)

/-- Splits the longest leading run of unit characters (anything up to the
next digit or dot) off a character list, as `time.ParseDuration` does when
scanning a unit name. -/
def takeUnitChars : List Char → List Char × List Char
  | [] => ([], [])
  | c :: cs =>
    if isDigitChar c || c = '.' then
      ([], c :: cs)
    else
      let p := takeUnitChars cs
      (c :: p.1, p.2)

/-- Value of a digit string. -/
def digitsToNat (ds : List Char) : Nat :=
  ds.foldl (fun a c => a * 10 + (c.toNat - 48)) 0

/-- One pass of the `time.ParseDuration` loop: repeatedly reads
`[digits][.digits]unit` items and sums their nanosecond values.  The fuel
argument dominates the input length; every successful iteration consumes
at least one character. -/
def parseDurationLoop : Nat → List Char → Option Nat
  | 0, _ => none
  | _, [] => some 0
  | fuel + 1, cs =>
    let ip := takeDigits cs
    match ip.2 with
    | '.' :: r2 =>
      let fp := takeDigits r2
      if ip.1.isEmpty && fp.1.isEmpty then
        none
      else
        let up := takeUnitChars fp.2
        match durationUnit (String.mk up.1) with
        | none => none
        | some u =>
          let v := digitsToNat ip.1 * u + digitsToNat fp.1 * u / 10 ^ fp.1.length
          (parseDurationLoop fuel up.2).map (fun rest => v + rest)
    | _ =>
      if ip.1.isEmpty then
        none
      else
        let up := takeUnitChars ip.2
        match durationUnit (String.mk up.1) with
        | none => none
        | some u =>
          (parseDurationLoop fuel up.2).map (fun rest => digitsToNat ip.1 * u + rest)

/-- Embeds Go `time.ParseDuration`: optional sign, the special case `"0"`,
then a non-empty sequence of `[digits][.digits]unit` items.  Returns the
duration in nanoseconds, or `none` where Go returns an error. -/
def parseDuration (s : String) : Option Int :=
  let signed :
      Bool × List Char :=
    match s.data with
    | '-' :: cs => (true, cs)
    | '+' :: cs => (false, cs)
    | cs => (false, cs)
  if signed.2 = ['0'] then
    some 0
  else if signed.2.isEmpty then
    none
  else
    (parseDurationLoop (signed.2.length + 1) signed.2).map
      (fun n => if signed.1 then -(n : Int) else (n : Int))

/-! ## Configuration loading

Two variants exist in the repository: `internal/config/config.go` in the
telemetry-enabled module uses a single generic `getEnv` dispatching on the
type of the default value, while the plain module's `config.go` uses
`getEnv` for strings and `getDurationEnv` for durations.  Both are
embedded. -/

/-- One second, as a Go `time.Duration` (nanoseconds). -/
def second : Int := 1000000000

namespace ConfigGeneric

/-- `Config` of `internal/config/config.go` (telemetry-enabled variant). -/
structure Config where
  Port : String
  ReadTimeout : Int
  WriteTimeout : Int
  IdleTimeout : Int
  ShutdownTimeout : Int
  LogLevel : String
  Environment : String
  OtelEnabled : Bool
  OtelEndpoint : String
  OtelServiceName : String
  OtelServiceVersion : String
  deriving Repr, DecidableEq

/-- The `string` instantiation of the generic `getEnv`: an unset (empty)
variable yields the default, anything else is taken verbatim. -/
def getEnvString (env : Env) (key defaultValue : String) : String :=
  let value := env key
  if value = "" then defaultValue else value

/-- The `bool` instantiation of the generic `getEnv`: parse failures fall
back to the default. -/
def getEnvBool (env : Env) (key : String) (defaultValue : Bool) : Bool :=
  let value := env key
  if value = "" then defaultValue
  else
    match parseBool value with
    | some b => b
    | none => defaultValue

/-- The `time.Duration` instantiation of the generic `getEnv`: parse
failures fall back to the default. -/
def getEnvDuration (env : Env) (key : String) (defaultValue : Int) : Int :=
  let value := env key
  if value = "" then defaultValue
  else
    match parseDuration value with
    | some d => d
    | none => defaultValue

/-- Embeds `config.Load` of `internal/config/config.go`. -/
def Load (env : Env) : Config where
  Port := getEnvString env "PORT" "8080"
  ReadTimeout := getEnvDuration env "READ_TIMEOUT" (5 * second)
  WriteTimeout := getEnvDuration env "WRITE_TIMEOUT" (10 * second)
  IdleTimeout := getEnvDuration env "IDLE_TIMEOUT" (120 * second)
  ShutdownTimeout := getEnvDuration env "SHUTDOWN_TIMEOUT" (15 * second)
  LogLevel := getEnvString env "LOG_LEVEL" "info"
  Environment := getEnvString env "ENVIRONMENT" "development"
  OtelEnabled := getEnvBool env "OTEL_ENABLED" true
  OtelEndpoint := getEnvString env "OTEL_EXPORTER_OTLP_ENDPOINT" "http://localhost:4318"
  OtelServiceName := getEnvString env "OTEL_SERVICE_NAME" "go-backend-service"
  OtelServiceVersion := getEnvString env "OTEL_SERVICE_VERSION" "1.0.0"

end ConfigGeneric

namespace ConfigSimple

/-- `Config` of the plain variant's `config.go`. -/
structure Config where
  Port : String
  ReadTimeout : Int
  WriteTimeout : Int
  IdleTimeout : Int
  ShutdownTimeout : Int
  LogLevel : String
  Environment : String
  deriving Repr, DecidableEq

/-- Embeds the plain variant's `getEnv`. -/
def getEnv (env : Env) (key defaultValue : String) : String :=
  if env key ≠ "" then env key else defaultValue

/-- Embeds the plain variant's `getDurationEnv`: set-and-parseable wins,
otherwise the default. -/
def getDurationEnv (env : Env) (key : String) (defaultValue : Int) : Int :=
  if env key ≠ "" then
    match parseDuration (env key) with
    | some d => d
    | none => defaultValue
  else defaultValue

/-- Embeds the plain variant's `config.Load`. -/
def Load (env : Env) : Config where
  Port := getEnv env "PORT" "8080"
  ReadTimeout := getDurationEnv env "READ_TIMEOUT" (5 * second)
  WriteTimeout := getDurationEnv env "WRITE_TIMEOUT" (10 * second)
  IdleTimeout := getDurationEnv env "IDLE_TIMEOUT" (120 * second)
  ShutdownTimeout := getDurationEnv env "SHUTDOWN_TIMEOUT" (15 * second)
  LogLevel := getEnv env "LOG_LEVEL" "info"
  Environment := getEnv env "ENVIRONMENT" "development"

end ConfigSimple

/-- The environment used by the configuration test
(`PORT=9000`, `LOG_LEVEL=debug`, `ENVIRONMENT=production`). -/
def overrideEnv : Env := fun key =>
  if key = "PORT" then "9000"
  else if key = "LOG_LEVEL" then "debug"
  else if key = "ENVIRONMENT" then "production"
  else ""

/-! ## Request contexts

A Go `context.Context` carries a cancellation signal that other
goroutines may fire at any moment; each `select { case <-ctx.Done(): }`
in the code is one observation of that signal.  A context is therefore
embedded as the sequence of observations the request's code will make,
numbered in program order: `ProcessExample` reads observation 0 at its
entry checkpoint, `Repository.GetData` reads observation 1, and the
pre-result checkpoint reads observation 2.  `some e` means the context is
done with `ctx.Err() = e` at that read.  Real contexts are monotone: once
done, every later read is done with the same error (`Ctx.Mono`). -/

/-- `ctx.Err()` values: `context.Canceled` or `context.DeadlineExceeded`. -/
inductive CtxErr where
  | canceled
  | deadlineExceeded
  deriving Repr, DecidableEq

/-- A request context, as the sequence of cancellation observations made
by the request's code. -/
def Ctx : Type := Nat → Option CtxErr

/-- A context that is never cancelled. -/
def liveCtx : Ctx := fun _ => none

/-- A context already cancelled before any work starts. -/
def cancelledCtx (e : CtxErr) : Ctx := fun _ => some e

/-- Monotonicity of a real `context.Context`: once done, every later
observation is done with the same error. -/
def Ctx.Mono (c : Ctx) : Prop :=
  ∀ i j : Nat, i ≤ j → c i ≠ none → c j = c i

/-- Go `error` values that flow through the layers: a context error
returned verbatim, a `fmt.Errorf("msg: %w", err)` wrapping, or a plain
message. -/
inductive GoError where
  | ctxErr (e : CtxErr)
  | wrap (msg : String) (inner : GoError)
  | msg (s : String)
  deriving Repr, DecidableEq

/-! ## Data model (`internal/model/example.go`) -/

/-- `model.ExampleResponse`; the RFC3339 timestamp is carried as the
string the clock produced. -/
structure ExampleResponse where
  Message : String
  Timestamp : String
  Processed : Bool
  deriving Repr, DecidableEq

/-! ## Repository layer (`internal/repository`) -/

/-- One recorded invocation of the data-access stub, used to state
"the repository is never invoked" claims. -/
structure RepoCall where
  op : String
  arg : String
  deriving Repr, DecidableEq

namespace Repository

/-- Embeds `Repository.GetData`: one cancellation check (observation `t`
of the context), then canned data.  A done context's error is returned
verbatim, exactly as `return nil, ctx.Err()`. -/
def GetData (c : Ctx) (t : Nat) (id : String) :
    Except GoError (List (String × String)) :=
  match c t with
  | some e => .error (.ctxErr e)
  | none => .ok [("id", id), ("status", "active")]

/-- Embeds `Repository.CheckHealth`: a no-op placeholder that ignores the
context and returns `nil`. -/
def CheckHealth (_c : Ctx) : Option GoError := none

/-- Embeds `Repository.CheckReady`: a no-op placeholder that ignores the
context and returns `nil`. -/
def CheckReady (_c : Ctx) : Option GoError := none

end Repository

/-! ## Service layer (`internal/service`)

Each function returns its Go result paired with the list of repository
invocations it performed, in order. -/

namespace Service

/-- Embeds `Service.ProcessExample` (`internal/service/example.go`):
entry cancellation checkpoint (observation 0), repository call
(observation 1 inside `GetData`, error wrapped with
`"data access error"`), pre-result checkpoint (observation 2), then the
success response built from the name and the clock. -/
def ProcessExample (c : Ctx) (now : String) (name : String) :
    Except GoError ExampleResponse × List RepoCall :=
  match c 0 with
  | some e => (.error (.ctxErr e), [])
  | none =>
    match Repository.GetData c 1 name with
    | .error e => (.error (.wrap "data access error" e), [⟨"GetData", name⟩])
    | .ok _data =>
      match c 2 with
      | some e => (.error (.ctxErr e), [⟨"GetData", name⟩])
      | none =>
        (.ok ⟨"Hello, " ++ name ++ "!", now, true⟩, [⟨"GetData", name⟩])

/-- Embeds `Service.CheckHealth` (`internal/service/health.go`): forwards
to the repository unconditionally — there is no cancellation checkpoint —
and returns whatever the repository returned. -/
def CheckHealth (c : Ctx) : Option GoError × List RepoCall :=
  match Repository.CheckHealth c with
  | some e => (some e, [⟨"CheckHealth", ""⟩])
  | none => (none, [⟨"CheckHealth", ""⟩])

/-- Embeds `Service.CheckReady`: forwards to the repository
unconditionally and returns whatever the repository returned. -/
def CheckReady (c : Ctx) : Option GoError × List RepoCall :=
  match Repository.CheckReady c with
  | some e => (some e, [⟨"CheckReady", ""⟩])
  | none => (none, [⟨"CheckReady", ""⟩])

end Service

/-! ## HTTP transport model

A response writer is a record of headers, the status committed on the
wire, and the accumulated body.  As in `net/http`, the first
`WriteHeader` wins (later calls are "superfluous" no-ops on the wire) and
a `Write` before any `WriteHeader` implicitly commits status 200.
Structured log output is carried alongside.  A handler returns the
updated state together with `some v` when it panicked with value `v`
(the state then reflects all writes made before the panic). -/

/-- One structured log line (`log/slog`). -/
structure LogEntry where
  level : String
  msg : String
  attrs : List (String × String)
  deriving Repr, DecidableEq

/-- Response writer plus log sink state. -/
structure HttpState where
  headers : List (String × String)
  status : Option Nat
  body : String
  logs : List LogEntry
  deriving Repr, DecidableEq

/-- A fresh response: nothing written, nothing logged. -/
def HttpState.initial : HttpState := ⟨[], none, "", []⟩

/-- `w.Header().Set(k, v)`. -/
def HttpState.setHeader (s : HttpState) (k v : String) : HttpState :=
  { s with headers := (k, v) :: s.headers }

/-- First matching header value, as the client would receive it. -/
def HttpState.headerGet (s : HttpState) (k : String) : Option String :=
  (s.headers.find? (fun p => p.1 = k)).map (fun p => p.2)

/-- `w.WriteHeader(code)`: the first call commits the status; later calls
are ignored on the wire. -/
def HttpState.writeHeader (s : HttpState) (code : Nat) : HttpState :=
  match s.status with
  | none => { s with status := some code }
  | some _ => s

/-- `w.Write(bytes)`: commits status 200 if nothing was committed yet,
then appends to the body. -/
def HttpState.write (s : HttpState) (out : String) : HttpState :=
  match s.status with
  | none => { s with status := some 200, body := s.body ++ out }
  | some _ => { s with body := s.body ++ out }

/-- Emit one structured log line. -/
def HttpState.log (s : HttpState) (level msg : String)
    (attrs : List (String × String)) : HttpState :=
  { s with logs := s.logs ++ [⟨level, msg, attrs⟩] }

/-- An inbound HTTP request. -/
structure Request where
  method : String
  path : String
  query : List (String × String)
  remoteAddr : String
  ctx : Ctx

/-- `r.URL.Query().Get(key)`: first value, or `""` when absent. -/
def Request.queryGet (req : Request) (key : String) : String :=
  match req.query.find? (fun p => p.1 = key) with
  | some p => p.2
  | none => ""

/-- A handler: request and writer state in, updated state and an optional
escaping panic value out. -/
def HandlerFn : Type := Request → HttpState → HttpState × Option String

/-- Human-readable form of a `GoError`, as `err.Error()` renders it
(`fmt.Errorf("msg: %w", e)` joins with `": "`). -/
def GoError.message : GoError → String
  | .ctxErr .canceled => "context canceled"
  | .ctxErr .deadlineExceeded => "context deadline exceeded"
  | .wrap m inner => m ++ ": " ++ inner.message
  | .msg s => s

/-! ## JSON response envelopes

`encoding/json` renders of the `internal/model` records.  A literal brace
is written `\x7b` / `\x7d`. -/

/-- Render of `model.ErrorResponse` (field values in this service never
need escaping beyond quoting). -/
def errorJSON (m : String) : String := "\x7b\"error\":\"" ++ m ++ "\"\x7d"

/-- Render of `model.HealthResponse{Status: "healthy"}`. -/
def healthJSON : String := "\x7b\"status\":\"healthy\"\x7d"

/-- Render of `model.ReadyResponse{Status: "ready"}`. -/
def readyJSON : String := "\x7b\"status\":\"ready\"\x7d"

/-- Render of `model.ExampleResponse`, fields in struct order. -/
def exampleJSON (r : ExampleResponse) : String :=
  "\x7b\"message\":\"" ++ r.Message ++ "\",\"timestamp\":\"" ++ r.Timestamp ++
    "\",\"processed\":" ++ (if r.Processed then "true" else "false") ++ "\x7d"

/-! ## Handler layer (`internal/handler`) -/

namespace Handler

/-- Embeds `Handler.writeJSON` (`handler.go`): JSON content type, status,
then the `json.Encoder` output — which appends a newline. -/
def writeJSON (s : HttpState) (status : Nat) (payload : String) : HttpState :=
  ((s.setHeader "Content-Type" "application/json").writeHeader status).write
    (payload ++ "\n")

/-- Embeds `Handler.Health` (`health.go`): on a service error, log it and
send the generic 503 envelope; otherwise send the healthy payload. -/
def Health : HandlerFn := fun req s =>
  match (Service.CheckHealth req.ctx).1 with
  | some e =>
    (writeJSON (s.log "error" "health check failed" [("error", e.message)])
      503 (errorJSON "service unhealthy"), none)
  | none => (writeJSON s 200 healthJSON, none)

/-- Embeds `Handler.Ready` (`health.go`). -/
def Ready : HandlerFn := fun req s =>
  match (Service.CheckReady req.ctx).1 with
  | some e =>
    (writeJSON (s.log "error" "readiness check failed" [("error", e.message)])
      503 (errorJSON "service not ready"), none)
  | none => (writeJSON s 200 readyJSON, none)

/-- Embeds `Handler.Example` (`example.go`): the `name` query parameter
defaults to `"World"`, the service result is sent as 200, and any service
error is logged and mapped to the generic 500 envelope. -/
def Example (now : String) : HandlerFn := fun req s =>
  let name0 := req.queryGet "name"
  let name := if name0 = "" then "World" else name0
  match (Service.ProcessExample req.ctx now name).1 with
  | .error e =>
    (writeJSON
      (s.log "error" "service error" [("error", e.message), ("name", name)])
      500 (errorJSON "internal server error"), none)
  | .ok result => (writeJSON s 200 (exampleJSON result), none)

end Handler

/-- `http.NotFound`: plain-text 404 for an unmatched method+path. -/
def notFound : HandlerFn := fun _req s =>
  (((s.setHeader "Content-Type" "text/plain; charset=utf-8").setHeader
      "X-Content-Type-Options" "nosniff").writeHeader 404
    |>.write "404 page not found\n", none)

/-- Embeds the `http.ServeMux` route table registered in `server.New`:
exact method+path matching for the three endpoints. -/
def mux (now : String) : HandlerFn := fun req s =>
  if req.method = "GET" ∧ req.path = "/health" then Handler.Health req s
  else if req.method = "GET" ∧ req.path = "/ready" then Handler.Ready req s
  else if req.method = "GET" ∧ req.path = "/api/example" then
    Handler.Example now req s
  else notFound req s

/-! ## Middleware (`internal/middleware/middleware.go`)

Both middleware variants are embedded: the plain module's `TraceID`
(custom 128-bit random identifier) and the telemetry module's `Tracing`
(span-derived identifier).  `Recovery` and `Logging` are identical in
both modules.  The request-scoped context value installed by `TraceID`
and the span attributes recorded by `Tracing` have no observable effect
on the response or on the claims and are not carried in the state. -/

/-- Lower-case hex digit. -/
def hexDigit (n : Nat) : Char :=
  if n < 10 then Char.ofNat (48 + n) else Char.ofNat (87 + n)

/-- Two-character hex render of one byte (`encoding/hex`). -/
def byteHex (b : Nat) : String :=
  String.mk [hexDigit (b / 16 % 16), hexDigit (b % 16)]

/-- `hex.EncodeToString`: two hex characters per byte, in order. -/
def hexEncode : List Nat → String
  | [] => ""
  | b :: bs => byteHex b ++ hexEncode bs

/-- The bytes of the OpenTelemetry span observed by the `Tracing`
middleware: whether its span context is valid, and the 32-hex-character
render of its 128-bit trace identifier. -/
structure Span where
  valid : Bool
  traceID : String

namespace Middleware

/-- Embeds `generateTraceID`: hex of 16 random bytes when `crypto/rand`
succeeds (`randBytes = some b`), hex of the current time's string render
as the fallback when it fails. -/
def generateTraceID (randBytes : Option (List Nat)) (now : String) : String :=
  match randBytes with
  | some b => hexEncode b
  | none => hexEncode (now.data.map (fun ch => ch.toNat))

/-- Embeds the plain module's `TraceID` middleware: generate an
identifier, set the `X-Trace-ID` response header, then run the inner
handler (a panic below passes through — this middleware has no
`recover`). -/
def TraceID (randBytes : Option (List Nat)) (now : String)
    (next : HandlerFn) : HandlerFn := fun req s =>
  let traceID := generateTraceID randBytes now
  next req (s.setHeader "X-Trace-ID" traceID)

/-- Embeds the telemetry module's `Tracing` middleware: start a span, set
`X-Trace-ID` from the span context only when it is valid, then run the
inner handler (`defer span.End()` contains no `recover`, so a panic below
passes through). -/
def Tracing (span : Span) (next : HandlerFn) : HandlerFn := fun req s =>
  let s1 := if span.valid then s.setHeader "X-Trace-ID" span.traceID else s
  next req s1

/-- Embeds `Recovery`: run the inner handler; if it panicked, log the
panic value with method and path at error level, then unconditionally set
the JSON content type, call `WriteHeader(500)` and write the generic
envelope.  The panic never continues past this middleware. -/
def Recovery (next : HandlerFn) : HandlerFn := fun req s =>
  match next req s with
  | (s1, none) => (s1, none)
  | (s1, some v) =>
    let s2 := s1.log "error" "panic recovered"
      [("error", v), ("method", req.method), ("path", req.path)]
    (((s2.setHeader "Content-Type" "application/json").writeHeader 500).write
      (errorJSON "internal server error"), none)

/-- Embeds `Logging`: run the inner handler, then log one access line.
A panic from below skips the log (the deferred-less log statement never
runs) and continues upward.  The captured status code and the measured
duration are omitted from the modelled attributes. -/
def Logging (next : HandlerFn) : HandlerFn := fun req s =>
  match next req s with
  | (s1, some v) => (s1, some v)
  | (s1, none) =>
    (s1.log "info" "http request"
      [("method", req.method), ("path", req.path),
        ("remote_addr", req.remoteAddr)], none)

end Middleware

/-! ## Server construction (`internal/server/server.go`)

Both variants wrap the mux with the same three assignments, in the same
order: logging first, recovery second, and the trace-identifier
middleware last — so the middleware applied last is the outermost one. -/

namespace Server

/-- Embeds the plain variant's `server.New` middleware wiring:
`httpHandler = mux`, then `Logging`, then `Recovery`, then `TraceID`,
each wrapping the previous value. -/
def New (randBytes : Option (List Nat)) (now : String) : HandlerFn :=
  let httpHandler0 := mux now
  let httpHandler1 := Middleware.Logging httpHandler0
  let httpHandler2 := Middleware.Recovery httpHandler1
  let httpHandler3 := Middleware.TraceID randBytes now httpHandler2
  httpHandler3

/-- Embeds the telemetry variant's `server.New` middleware wiring (the
Swagger UI route is outside this embedding): `Logging`, then `Recovery`,
then `Tracing`, each wrapping the previous value. -/
def NewOtel (span : Span) (now : String) : HandlerFn :=
  let httpHandler0 := mux now
  let httpHandler1 := Middleware.Logging httpHandler0
  let httpHandler2 := Middleware.Recovery httpHandler1
  let httpHandler3 := Middleware.Tracing span httpHandler2
  httpHandler3

/-- Names for the three decorators, used to state chain-order claims. -/
inductive MW where
  | logging
  | recovery
  | traceID
  | tracing
  deriving Repr, DecidableEq

/-- The order in which `server.New` (plain variant) applies its wrap
assignments, first applied first — read directly off the three
`httpHandler = ...` statements. -/
def wrapOrder : List MW := [.logging, .recovery, .traceID]

/-- The wrap-application order of the telemetry variant's `server.New`. -/
def wrapOrderOtel : List MW := [.logging, .recovery, .tracing]

/-- Outermost-first view of a wrap-application sequence: since each
application wraps the handler built so far, the last-applied middleware
is the outermost. -/
def outermostFirst (applied : List MW) : List MW := applied.reverse

/-- Semantics of one named decorator. -/
def denoteMW (randBytes : Option (List Nat)) (now : String) (span : Span) :
    MW → HandlerFn → HandlerFn
  | .logging => Middleware.Logging
  | .recovery => Middleware.Recovery
  | .traceID => Middleware.TraceID randBytes now
  | .tracing => Middleware.Tracing span

/-- Folding the wrap applications over an inner handler, first applied
first — the shape of the `httpHandler = m(httpHandler)` statement
sequence. -/
def buildChain (randBytes : Option (List Nat)) (now : String) (span : Span)
    (applied : List MW) (inner : HandlerFn) : HandlerFn :=
  applied.foldl (fun h m => denoteMW randBytes now span m h) inner

end Server

/-! ## Process lifecycle (`cmd/server/main.go`) -/

/-- Outcome of the `srv.ListenAndServe()` goroutine: the
shutdown-triggered `http.ErrServerClosed`, or any other listener
failure. -/
inductive ListenResult where
  | serverClosed
  | failed (errMsg : String)
  deriving Repr, DecidableEq

/-- Embeds the exit-code decision of `main`: a listener failure other
than `ErrServerClosed` exits 1 from the serving goroutine; otherwise the
signal path runs `srv.Shutdown` and exits 1 exactly when it returned an
error, 0 on a clean drain. -/
def mainExitCode (listen : ListenResult) (shutdownErr : Option String) : Nat :=
  match listen with
  | .failed _ => 1
  | .serverClosed =>
    match shutdownErr with
    | some _ => 1
    | none => 0

/-- Modelled from the spec: the `net/http` `Server.Shutdown` drain
semantics (the library behavior behind `main`'s shutdown call is not
under `src/`).  After the termination signal the server stops accepting
new connections; an in-flight request completes when its remaining delay
fits into the configured shutdown timeout, otherwise `Shutdown` returns
the deadline error. -/
inductive ServerPhase where
  | accepting
  | draining
  deriving Repr, DecidableEq

/-- Modelled from the spec: whether a new connection is accepted in a
lifecycle phase — refused as soon as draining begins. -/
def acceptsNew : ServerPhase → Bool
  | .accepting => true
  | .draining => false

/-- Modelled from the spec: result of the bounded drain, given an
in-flight request's remaining delay and the shutdown timeout. -/
def shutdownResult (inflightDelay shutdownTimeout : Int) : Option String :=
  if inflightDelay ≤ shutdownTimeout then none
  else some "context deadline exceeded"

/-- Modelled from the spec: the delayed in-flight request still completes
and delivers its response exactly when it fits into the timeout. -/
def inflightCompletes (inflightDelay shutdownTimeout : Int) : Bool :=
  inflightDelay ≤ shutdownTimeout

/-! ## Claim predicates and concrete instruments -/

/-- An environment whose timeout and telemetry-toggle variables are set
to unparseable values. -/
def badEnv : Env := fun key =>
  if key = "READ_TIMEOUT" then "not-a-duration"
  else if key = "OTEL_ENABLED" then "yes"
  else ""

/-- A context that is live at the entry checkpoint but cancelled by the
time the data-access stub observes it. -/
def midCancelCtx : Ctx := fun i => if i = 0 then none else some CtxErr.canceled

/-- A plain GET request to the example endpoint on a live context. -/
def plainReq : Request := ⟨"GET", "/api/example", [], "203.0.113.7:9", liveCtx⟩

/-- An inner handler that writes part of a response body and then
panics — the situation the recovery middleware's write-back concerns. -/
def panicAfterWrite : HandlerFn := fun _req s => (s.write "partial", some "boom")

/-- The write-only-if-unwritten discipline asserted of the recovery
middleware: had the inner handler panicked after writing body bytes, the
middleware would have to leave the body unchanged. -/
def RecoveryWritesEnvelopeOnlyIfUnwritten : Prop :=
  ∀ (next : HandlerFn) (req : Request) (s : HttpState),
    (next req s).2 ≠ none →
    (next req s).1.body ≠ "" →
    (Middleware.Recovery next req s).1.body = (next req s).1.body

/-- Lower-case hexadecimal alphabet test. -/
def isHexChar (c : Char) : Bool :=
  ('0' ≤ c && c ≤ '9') || ('a' ≤ c && c ≤ 'f')

/-- The three methods+paths registered on the mux. -/
def matchedRoute (req : Request) : Prop :=
  req.method = "GET" ∧
    (req.path = "/health" ∨ req.path = "/ready" ∨ req.path = "/api/example")

/-- The fixed generic category messages of the error envelope. -/
def errMsgs : List String :=
  ["internal server error", "service unhealthy", "service not ready"]

/-- The body is the serialization of the error envelope shape with one of
the generic category messages. -/
def isErrorEnvelopeBody (b : String) : Prop :=
  ∃ m ∈ errMsgs, b = errorJSON m ++ "\n"

/-- The body is the serialization of one of the three success payload
shapes. -/
def isSuccessEnvelopeBody (b : String) : Prop :=
  b = healthJSON ++ "\n" ∨ b = readyJSON ++ "\n" ∨
    ∃ r : ExampleResponse, r.Processed = true ∧ b = exampleJSON r ++ "\n"

/-- The 16 bytes used to instantiate trace-identifier statements. -/
def traceBytesW : List Nat :=
  [26, 47, 67, 102, 129, 150, 180, 205, 231, 8, 24, 99, 140, 17, 203, 90]

/-! ## Response-writer lemmas -/

theorem headerGet_setHeader (s : HttpState) (k v k' : String) :
    (s.setHeader k v).headerGet k' = if k = k' then some v else s.headerGet k' := by
  by_cases h : k = k' <;>
    simp [HttpState.setHeader, HttpState.headerGet, List.find?, h]

theorem headers_writeHeader (s : HttpState) (c : Nat) :
    (s.writeHeader c).headers = s.headers := by
  cases hs : s.status <;> simp [HttpState.writeHeader, hs]

theorem headers_write (s : HttpState) (out : String) :
    (s.write out).headers = s.headers := by
  cases hs : s.status <;> simp [HttpState.write, hs]

theorem headerGet_writeHeader (s : HttpState) (c : Nat) (k : String) :
    (s.writeHeader c).headerGet k = s.headerGet k := by
  simp [HttpState.headerGet, headers_writeHeader]

theorem headerGet_write (s : HttpState) (out : String) (k : String) :
    (s.write out).headerGet k = s.headerGet k := by
  simp [HttpState.headerGet, headers_write]

theorem headerGet_log (s : HttpState) (level msg : String)
    (attrs : List (String × String)) (k : String) :
    (s.log level msg attrs).headerGet k = s.headerGet k := by
  simp [HttpState.headerGet, HttpState.log]

theorem headerGet_writeJSON (s : HttpState) (st : Nat) (payload k : String)
    (h : k ≠ "Content-Type") :
    (Handler.writeJSON s st payload).headerGet k = s.headerGet k := by
  simp [Handler.writeJSON, headerGet_write, headerGet_writeHeader,
    headerGet_setHeader, Ne.symm h]

/-- No registered handler panics. -/
theorem mux_snd (now : String) (req : Request) (s : HttpState) :
    (mux now req s).2 = none := by
  simp only [mux]
  split_ifs
  · simp [Handler.Health, Service.CheckHealth, Repository.CheckHealth]
  · simp [Handler.Ready, Service.CheckReady, Repository.CheckReady]
  · simp only [Handler.Example]
    split <;> rfl
  · rfl

/-- The registered handlers touch only the `Content-Type` and
`X-Content-Type-Options` headers. -/
theorem mux_headerGet (now : String) (req : Request) (s : HttpState)
    (k : String) (h1 : k ≠ "Content-Type")
    (h2 : k ≠ "X-Content-Type-Options") :
    (mux now req s).1.headerGet k = s.headerGet k := by
  simp only [mux]
  split_ifs
  · simp [Handler.Health, Service.CheckHealth, Repository.CheckHealth,
      headerGet_writeJSON _ _ _ _ h1]
  · simp [Handler.Ready, Service.CheckReady, Repository.CheckReady,
      headerGet_writeJSON _ _ _ _ h1]
  · simp only [Handler.Example]
    split <;> simp [headerGet_writeJSON _ _ _ _ h1, headerGet_log]
  · simp [notFound, headerGet_write, headerGet_writeHeader,
      headerGet_setHeader, Ne.symm h1, Ne.symm h2]

/-- The inner chain below the trace middleware (`Recovery` around
`Logging` around the mux) preserves any header other than the two the
handlers set. -/
theorem headerGet_inner_chain (now : String) (req : Request) (s : HttpState)
    (k : String) (h1 : k ≠ "Content-Type")
    (h2 : k ≠ "X-Content-Type-Options") :
    (Middleware.Recovery (Middleware.Logging (mux now)) req s).1.headerGet k =
      s.headerGet k := by
  rcases hm : mux now req s with ⟨s1, p⟩
  have hp : p = none := by
    have h0 := mux_snd now req s
    rw [hm] at h0
    exact h0
  subst hp
  have hpre : s1.headerGet k = s.headerGet k := by
    have h0 := mux_headerGet now req s k h1 h2
    rw [hm] at h0
    exact h0
  simp [Middleware.Recovery, Middleware.Logging, hm, headerGet_log, hpre]

/-! ## Hexadecimal render lemmas -/

theorem byteHex_length (b : Nat) : (byteHex b).length = 2 := rfl

theorem hexEncode_length (bs : List Nat) :
    (hexEncode bs).length = 2 * bs.length := by
  induction bs with
  | nil => rfl
  | cons b bs ih =>
    simp [hexEncode, String.length_append, byteHex_length, ih,
      List.length_cons]
    omega

theorem hexDigit_isHex (n : Nat) (h : n < 16) : isHexChar (hexDigit n) = true := by
  interval_cases n <;> rfl

theorem hexEncode_chars (bs : List Nat) :
    ∀ ch ∈ (hexEncode bs).data, isHexChar ch = true := by
  induction bs with
  | nil => intro ch h; simp [hexEncode] at h
  | cons b bs ih =>
    intro ch h
    simp only [hexEncode, String.data_append, List.mem_append] at h
    rcases h with h | h
    · have : ch = hexDigit (b / 16 % 16) ∨ ch = hexDigit (b % 16) := by
        simpa [byteHex] using h
      rcases this with rfl | rfl
      · exact hexDigit_isHex _ (Nat.mod_lt _ (by omega))
      · exact hexDigit_isHex _ (Nat.mod_lt _ (by omega))
    · exact ih ch h

/-! ## Claim C9: configuration defaults and overrides -/

/-- C9: loading with no environment variables yields exactly the
documented defaults (Port `"8080"`, ReadTimeout 5s, WriteTimeout 10s,
IdleTimeout 120s, ShutdownTimeout 15s, LogLevel `"info"`, Environment
`"development"`), and setting `PORT=9000`, `LOG_LEVEL=debug`,
`ENVIRONMENT=production` yields exactly those overrides with every other
field at its default — in both config variants. -/
theorem claim_C9_config_defaults_and_overrides :
    ConfigSimple.Load emptyEnv =
      ⟨"8080", 5 * second, 10 * second, 120 * second, 15 * second,
        "info", "development"⟩ ∧
    ConfigGeneric.Load emptyEnv =
      ⟨"8080", 5 * second, 10 * second, 120 * second, 15 * second,
        "info", "development", true, "http://localhost:4318",
        "go-backend-service", "1.0.0"⟩ ∧
    ConfigSimple.Load overrideEnv =
      ⟨"9000", 5 * second, 10 * second, 120 * second, 15 * second,
        "debug", "production"⟩ ∧
    ConfigGeneric.Load overrideEnv =
      ⟨"9000", 5 * second, 10 * second, 120 * second, 15 * second,
        "debug", "production", true, "http://localhost:4318",
        "go-backend-service", "1.0.0"⟩ :=
  ⟨rfl, rfl, rfl, rfl⟩

/-! ## Claim C10: parse failures fall back to defaults -/

/-- C10: configuration loading is total and never reports an error; any
environment value that fails to parse for its target type (a bad duration
string, or a bad boolean for `OTEL_ENABLED`) silently falls back to that
field's documented default. -/
theorem claim_C10_parse_failure_falls_back (env : Env) :
    (∀ key d, parseDuration (env key) = none →
      ConfigSimple.getDurationEnv env key d = d) ∧
    (∀ key d, parseDuration (env key) = none →
      ConfigGeneric.getEnvDuration env key d = d) ∧
    (∀ key b, parseBool (env key) = none →
      ConfigGeneric.getEnvBool env key b = b) ∧
    (parseDuration (env "READ_TIMEOUT") = none →
      (ConfigSimple.Load env).ReadTimeout = 5 * second ∧
      (ConfigGeneric.Load env).ReadTimeout = 5 * second) ∧
    (parseBool (env "OTEL_ENABLED") = none →
      (ConfigGeneric.Load env).OtelEnabled = true) := by
  have hdur : ∀ key d, parseDuration (env key) = none →
      ConfigSimple.getDurationEnv env key d = d := by
    intro key d h
    simp [ConfigSimple.getDurationEnv, h]
  have hdur2 : ∀ key d, parseDuration (env key) = none →
      ConfigGeneric.getEnvDuration env key d = d := by
    intro key d h
    simp [ConfigGeneric.getEnvDuration, h]
  have hbool : ∀ key b, parseBool (env key) = none →
      ConfigGeneric.getEnvBool env key b = b := by
    intro key b h
    simp [ConfigGeneric.getEnvBool, h]
  refine ⟨hdur, hdur2, hbool, ?_, ?_⟩
  · intro h
    exact ⟨hdur "READ_TIMEOUT" (5 * second) h, hdur2 "READ_TIMEOUT" (5 * second) h⟩
  · intro h
    exact hbool "OTEL_ENABLED" true h

/-- Witness for C10 at a concrete unparseable environment. -/
theorem claim_C10_witness :
    ConfigSimple.getDurationEnv badEnv "READ_TIMEOUT" (5 * second) = 5 * second ∧
    (ConfigSimple.Load badEnv).ReadTimeout = 5 * second ∧
    (ConfigGeneric.Load badEnv).ReadTimeout = 5 * second ∧
    (ConfigGeneric.Load badEnv).OtelEnabled = true :=
  ⟨(claim_C10_parse_failure_falls_back badEnv).1 "READ_TIMEOUT" (5 * second)
      (by decide),
    ((claim_C10_parse_failure_falls_back badEnv).2.2.2.1 (by decide)).1,
    ((claim_C10_parse_failure_falls_back badEnv).2.2.2.1 (by decide)).2,
    (claim_C10_parse_failure_falls_back badEnv).2.2.2.2 (by decide)⟩

/-! ## Claim C6: exit codes and shutdown drain -/

/-- C6: the process exits 0 exactly when the listener closed through
shutdown and the bounded drain succeeded; it exits 1 on any other
listener failure or drain error.  In the drain model, no new connection
is accepted after the termination signal, and the delayed in-flight
request completes exactly when its delay fits the shutdown timeout —
in which case the exit code is 0, and 1 otherwise. -/
theorem claim_C6_exit_codes_and_drain :
    (∀ (listen : ListenResult) (sh : Option String),
      mainExitCode listen sh = 0 ↔ listen = .serverClosed ∧ sh = none) ∧
    (∀ m sh, mainExitCode (.failed m) sh = 1) ∧
    (∀ m, mainExitCode .serverClosed (some m) = 1) ∧
    acceptsNew .draining = false ∧
    (∀ d t : Int, inflightCompletes d t = true ↔ d ≤ t) ∧
    (∀ d t : Int,
      mainExitCode .serverClosed (shutdownResult d t) =
        if d ≤ t then 0 else 1) := by
  refine ⟨?_, fun m sh => rfl, fun m => rfl, rfl, ?_, ?_⟩
  · intro listen sh
    cases listen <;> cases sh <;> simp [mainExitCode]
  · intro d t
    simp [inflightCompletes]
  · intro d t
    by_cases h : d ≤ t <;> simp [shutdownResult, mainExitCode, h]

/-! ## Claim C2: middleware chain order -/

/-- C2 counterexample: the order in which `server.New` builds the chain,
read outermost first, is not the claimed
access-logging → panic-containment → tracing order, in either variant. -/
theorem claim_C2_counterexample :
    Server.outermostFirst Server.wrapOrder ≠
      [Server.MW.logging, Server.MW.recovery, Server.MW.traceID] ∧
    Server.outermostFirst Server.wrapOrderOtel ≠
      [Server.MW.logging, Server.MW.recovery, Server.MW.tracing] :=
  ⟨by decide, by decide⟩

/-- C2 (amended): the chain order, outermost first, is
trace-identifier/tracing injection → panic containment → access logging →
dispatcher: the last-applied wrap is outermost, and folding the written
wrap sequence over the mux reproduces `server.New` exactly, in both
variants. -/
theorem claim_C2_chain_order (randBytes : Option (List Nat)) (now : String)
    (span : Span) :
    Server.outermostFirst Server.wrapOrder =
      [Server.MW.traceID, Server.MW.recovery, Server.MW.logging] ∧
    Server.outermostFirst Server.wrapOrderOtel =
      [Server.MW.tracing, Server.MW.recovery, Server.MW.logging] ∧
    Server.New randBytes now =
      Server.buildChain randBytes now span Server.wrapOrder (mux now) ∧
    Server.NewOtel span now =
      Server.buildChain randBytes now span Server.wrapOrderOtel (mux now) :=
  ⟨by decide, by decide, rfl, rfl⟩

/-! ## Claim C1: already-cancelled contexts at the service layer -/

/-- C1 counterexample: with a context already cancelled before the call,
`CheckHealth` and `CheckReady` do not return a cancellation error — they
return no error at all — and the data-access stub is invoked once. -/
theorem claim_C1_counterexample :
    (Service.CheckHealth (cancelledCtx .canceled)).1 = none ∧
    (Service.CheckHealth (cancelledCtx .canceled)).2 = [⟨"CheckHealth", ""⟩] ∧
    (Service.CheckReady (cancelledCtx .canceled)).1 = none ∧
    (Service.CheckReady (cancelledCtx .canceled)).2 = [⟨"CheckReady", ""⟩] :=
  ⟨rfl, rfl, rfl, rfl⟩

/-- C1 (amended): `ProcessExample` invoked on an already-cancelled
context returns the context's error immediately and never invokes the
repository; `CheckHealth` and `CheckReady`, by contrast, always invoke
the repository stub exactly once and return its (nil) result regardless
of cancellation. -/
theorem claim_C1_cancelled_entry (c : Ctx) (e : CtxErr) (now name : String)
    (h : c 0 = some e) :
    Service.ProcessExample c now name = (.error (.ctxErr e), []) ∧
    (Service.CheckHealth c).1 = none ∧
    (Service.CheckHealth c).2 = [⟨"CheckHealth", ""⟩] ∧
    (Service.CheckReady c).1 = none ∧
    (Service.CheckReady c).2 = [⟨"CheckReady", ""⟩] := by
  refine ⟨?_, rfl, rfl, rfl, rfl⟩
  simp [Service.ProcessExample, h]

/-- Witness for C1 at a concrete cancelled context. -/
theorem claim_C1_witness :
    Service.ProcessExample (cancelledCtx .canceled) "T" "Test" =
      (.error (.ctxErr .canceled), []) :=
  (claim_C1_cancelled_entry (cancelledCtx .canceled) .canceled "T" "Test" rfl).1

/-! ## Claim C5: cancellation error propagation through ProcessExample -/

/-- C5 counterexample: on a monotone context that becomes cancelled
between the entry checkpoint and the data-access stub's own check, the
error `ProcessExample` returns is the stub's context error wrapped with
the operation-identifying message `"data access error"` — not the
context's error verbatim. -/
theorem claim_C5_counterexample :
    (Service.ProcessExample midCancelCtx "T" "Test").1 =
      .error (.wrap "data access error" (.ctxErr .canceled)) ∧
    (Service.ProcessExample midCancelCtx "T" "Test").1 ≠
      .error (.ctxErr .canceled) ∧
    (Service.ProcessExample midCancelCtx "T" "Test").1 ≠
      .error (.ctxErr .deadlineExceeded) ∧
    Ctx.Mono midCancelCtx := by
  have heval : (Service.ProcessExample midCancelCtx "T" "Test").1 =
      .error (.wrap "data access error" (.ctxErr .canceled)) := rfl
  refine ⟨rfl, ?_, ?_, ?_⟩
  · intro h
    rw [heval] at h
    simp at h
  · intro h
    rw [heval] at h
    simp at h
  intro i j hij hne
  by_cases hi : i = 0
  · subst hi
    simp [midCancelCtx] at hne
  · have hj : j ≠ 0 := by omega
    simp [midCancelCtx, hi, hj]

/-- C5 (amended): cancellation observed at either of `ProcessExample`'s
own checkpoints is propagated verbatim as the context's error, while
cancellation first observed inside the data-access stub call comes back
wrapped with the `"data access error"` operation message. -/
theorem claim_C5_cancellation_propagation (c : Ctx) (now name : String)
    (e : CtxErr) :
    (c 0 = some e →
      (Service.ProcessExample c now name).1 = .error (.ctxErr e)) ∧
    (c 0 = none → c 1 = some e →
      (Service.ProcessExample c now name).1 =
        .error (.wrap "data access error" (.ctxErr e))) ∧
    (c 0 = none → c 1 = none → c 2 = some e →
      (Service.ProcessExample c now name).1 = .error (.ctxErr e)) := by
  refine ⟨?_, ?_, ?_⟩
  · intro h0
    simp [Service.ProcessExample, h0]
  · intro h0 h1
    simp [Service.ProcessExample, Repository.GetData, h0, h1]
  · intro h0 h1 h2
    simp [Service.ProcessExample, Repository.GetData, h0, h1, h2]

/-- Witness for C5 at a concrete mid-operation cancellation. -/
theorem claim_C5_witness :
    (Service.ProcessExample midCancelCtx "W" "Go").1 =
      .error (.wrap "data access error" (.ctxErr .canceled)) :=
  (claim_C5_cancellation_propagation midCancelCtx "W" "Go" .canceled).2.1 rfl rfl

/-! ## Claim C4: panic recovery behavior -/

/-- C4 counterexample: the recovery middleware does not restrict the
envelope write to unwritten responses — when the inner handler panics
after writing body bytes, the generic envelope is appended to them
anyway. -/
theorem claim_C4_counterexample : ¬ RecoveryWritesEnvelopeOnlyIfUnwritten := by
  intro h
  have h2 := h panicAfterWrite plainReq HttpState.initial
    (by simp [panicAfterWrite]) (by decide)
  have h3 :
      (Middleware.Recovery panicAfterWrite plainReq HttpState.initial).1.body ≠
        (panicAfterWrite plainReq HttpState.initial).1.body := by decide
  exact h3 h2

/-- C4 (amended): on a captured panic the middleware logs the panic value
with method and path at error level and then writes the generic 500
envelope unconditionally: the envelope bytes are appended to whatever
body the inner handler already produced, the 500 status is committed only
when the inner handler had committed nothing, an already-committed status
stands, and the panic never propagates past the middleware. -/
theorem claim_C4_recovery_behavior (next : HandlerFn) (req : Request)
    (s s1 : HttpState) (v : String) (h : next req s = (s1, some v)) :
    (Middleware.Recovery next req s).2 = none ∧
    (Middleware.Recovery next req s).1.body =
      s1.body ++ errorJSON "internal server error" ∧
    (Middleware.Recovery next req s).1.logs = s1.logs ++
      [⟨"error", "panic recovered",
        [("error", v), ("method", req.method), ("path", req.path)]⟩] ∧
    (s1.status = none →
      (Middleware.Recovery next req s).1.status = some 500) ∧
    (∀ code, s1.status = some code →
      (Middleware.Recovery next req s).1.status = some code) := by
  refine ⟨?_, ?_, ?_, ?_, ?_⟩ <;>
    simp only [Middleware.Recovery, h] <;>
    cases hs : s1.status <;>
    simp [HttpState.log, HttpState.setHeader, HttpState.writeHeader,
      HttpState.write, hs]

/-- Witness for C4 at the concrete partially-written panicking handler. -/
theorem claim_C4_witness :
    (Middleware.Recovery panicAfterWrite plainReq HttpState.initial).2 = none ∧
    (Middleware.Recovery panicAfterWrite plainReq HttpState.initial).1.body =
      (HttpState.initial.write "partial").body ++
        errorJSON "internal server error" :=
  ⟨(claim_C4_recovery_behavior panicAfterWrite plainReq HttpState.initial
      (HttpState.initial.write "partial") "boom" rfl).1,
    (claim_C4_recovery_behavior panicAfterWrite plainReq HttpState.initial
      (HttpState.initial.write "partial") "boom" rfl).2.1⟩

/-! ## Claim C3: the correlation-identifier response header -/

/-- C3: every response of the composed chain carries the `X-Trace-ID`
header: in the 128-bit-random variant it is the 32-character lower-case
hex render of the 16 random bytes (hence non-empty), and in the
tracing-enabled variant (valid span context) it is the span-derived
trace identifier. -/
theorem claim_C3_trace_header (b : List Nat) (hb : b.length = 16)
    (now : String) (req : Request) (s : HttpState) (span : Span)
    (hv : span.valid = true) :
    (Server.New (some b) now req s).1.headerGet "X-Trace-ID" =
      some (hexEncode b) ∧
    (hexEncode b).length = 32 ∧
    hexEncode b ≠ "" ∧
    (∀ ch ∈ (hexEncode b).data, isHexChar ch = true) ∧
    (Server.NewOtel span now req s).1.headerGet "X-Trace-ID" =
      some span.traceID := by
  have hlen : (hexEncode b).length = 32 := by
    rw [hexEncode_length, hb]
  refine ⟨?_, hlen, ?_, hexEncode_chars b, ?_⟩
  · show (Middleware.TraceID (some b) now
        (Middleware.Recovery (Middleware.Logging (mux now))) req s).1.headerGet
        "X-Trace-ID" = some (hexEncode b)
    simp only [Middleware.TraceID, Middleware.generateTraceID]
    rw [headerGet_inner_chain now req _ "X-Trace-ID" (by decide) (by decide)]
    simp [headerGet_setHeader]
  · intro hempty
    rw [hempty] at hlen
    simp at hlen
  · show (Middleware.Tracing span
        (Middleware.Recovery (Middleware.Logging (mux now))) req s).1.headerGet
        "X-Trace-ID" = some span.traceID
    simp only [Middleware.Tracing, hv, if_true]
    rw [headerGet_inner_chain now req _ "X-Trace-ID" (by decide) (by decide)]
    simp [headerGet_setHeader]

/-- Witness for C3 at concrete random bytes and a concrete span. -/
theorem claim_C3_witness :
    (Server.New (some traceBytesW) "T" plainReq
        HttpState.initial).1.headerGet "X-Trace-ID" =
      some (hexEncode traceBytesW) ∧
    (hexEncode traceBytesW).length = 32 ∧
    (Server.NewOtel ⟨true, hexEncode traceBytesW⟩ "T" plainReq
        HttpState.initial).1.headerGet "X-Trace-ID" =
      some (hexEncode traceBytesW) :=
  ⟨(claim_C3_trace_header traceBytesW rfl "T" plainReq HttpState.initial
      ⟨true, hexEncode traceBytesW⟩ rfl).1,
    (claim_C3_trace_header traceBytesW rfl "T" plainReq HttpState.initial
      ⟨true, hexEncode traceBytesW⟩ rfl).2.1,
    (claim_C3_trace_header traceBytesW rfl "T" plainReq HttpState.initial
      ⟨true, hexEncode traceBytesW⟩ rfl).2.2.2.2⟩

/-! ## Body and envelope lemmas -/

theorem empty_string_append (s : String) : "" ++ s = s := by
  apply String.ext
  simp [String.data_append]

theorem body_log (s : HttpState) (level msg : String)
    (attrs : List (String × String)) :
    (s.log level msg attrs).body = s.body := rfl

theorem body_writeJSON (s : HttpState) (st : Nat) (payload : String) :
    (Handler.writeJSON s st payload).body = s.body ++ (payload ++ "\n") := by
  cases hs : s.status <;>
    simp [Handler.writeJSON, HttpState.setHeader, HttpState.writeHeader,
      HttpState.write, hs]

theorem status_writeJSON (s : HttpState) (st : Nat) (payload : String)
    (hs : s.status = none) :
    (Handler.writeJSON s st payload).status = some st := by
  simp [Handler.writeJSON, HttpState.setHeader, HttpState.writeHeader,
    HttpState.write, hs]

/-- Every success value `ProcessExample` can return has `Processed`
true. -/
theorem processExample_processed (c : Ctx) (now name : String)
    (r : ExampleResponse)
    (h : (Service.ProcessExample c now name).1 = .ok r) : r.Processed = true := by
  simp only [Service.ProcessExample] at h
  rcases h0 : c 0 with _ | e <;> rw [h0] at h
  · rcases h1 : Repository.GetData c 1 name with e | d <;> rw [h1] at h
    · simp at h
    · rcases h2 : c 2 with _ | e <;> rw [h2] at h
      · simp at h
        rw [← h]
      · simp at h
  · simp at h

/-- On a context whose three observations are all live, `ProcessExample`
returns the greeting built from the name. -/
theorem processExample_live (c : Ctx) (now name : String) (h0 : c 0 = none)
    (h1 : c 1 = none) (h2 : c 2 = none) :
    (Service.ProcessExample c now name).1 =
      .ok ⟨"Hello, " ++ name ++ "!", now, true⟩ := by
  simp [Service.ProcessExample, Repository.GetData, h0, h1, h2]

/-- The error envelope is never the healthy payload. -/
theorem healthJSON_ne_errorJSON (m : String) :
    ¬ (healthJSON ++ "\n" = errorJSON m ++ "\n") := by
  intro h
  have h2 := congrArg String.data h
  simp only [errorJSON, healthJSON, String.data_append] at h2
  simp only [List.cons_append, List.nil_append, List.append_assoc] at h2
  simp at h2

/-- The error envelope is never the ready payload. -/
theorem readyJSON_ne_errorJSON (m : String) :
    ¬ (readyJSON ++ "\n" = errorJSON m ++ "\n") := by
  intro h
  have h2 := congrArg String.data h
  simp only [errorJSON, readyJSON, String.data_append] at h2
  simp only [List.cons_append, List.nil_append, List.append_assoc] at h2
  simp at h2

/-- The error envelope is never an example success payload, whatever the
message and response values. -/
theorem errorJSON_ne_exampleJSON (m : String) (r : ExampleResponse) :
    errorJSON m ++ "\n" ≠ exampleJSON r ++ "\n" := by
  intro h
  have h2 := congrArg String.data h
  simp only [errorJSON, exampleJSON, String.data_append] at h2
  simp only [List.cons_append, List.nil_append, List.append_assoc] at h2
  simp at h2

/-- The example handler's body is either an example success payload with
`Processed` true or the generic 500 envelope, appended to the prior
body. -/
theorem example_handler_cases (now : String) (req : Request) (s : HttpState) :
    (∃ r : ExampleResponse, r.Processed = true ∧
      (Handler.Example now req s).1.body = s.body ++ (exampleJSON r ++ "\n")) ∨
    (Handler.Example now req s).1.body =
      s.body ++ (errorJSON "internal server error" ++ "\n") := by
  simp only [Handler.Example]
  rcases hres : (Service.ProcessExample req.ctx now
      (if req.queryGet "name" = "" then "World" else req.queryGet "name")).1
    with e | r
  · right
    simp [hres, body_writeJSON, HttpState.log]
  · left
    exact ⟨r, processExample_processed _ _ _ _ hres,
      by simp [hres, body_writeJSON]⟩

/-! ## Claim C7: envelope shapes and generic error messages -/

/-- C7: for every matched request, the serialized body is exactly one of
the two envelope shapes — a success payload or an error payload — and in
the error case the message is one of the fixed generic category strings;
no internal error detail ever reaches the body. -/
theorem claim_C7_envelope_shapes (req : Request) (now : String)
    (h : matchedRoute req) :
    (isSuccessEnvelopeBody (mux now req HttpState.initial).1.body ∧
      ¬ isErrorEnvelopeBody (mux now req HttpState.initial).1.body) ∨
    (isErrorEnvelopeBody (mux now req HttpState.initial).1.body ∧
      ¬ isSuccessEnvelopeBody (mux now req HttpState.initial).1.body) := by
  obtain ⟨hm, hp⟩ := h
  rcases hp with hp | hp | hp
  · have hb : (mux now req HttpState.initial).1.body = healthJSON ++ "\n" := by
      simp [mux, hm, hp, Handler.Health, Service.CheckHealth,
        Repository.CheckHealth, body_writeJSON, HttpState.initial,
        empty_string_append]
    rw [hb]
    left
    refine ⟨Or.inl rfl, ?_⟩
    rintro ⟨m, _, heq⟩
    exact healthJSON_ne_errorJSON m heq
  · have hb : (mux now req HttpState.initial).1.body = readyJSON ++ "\n" := by
      simp [mux, hm, hp, Handler.Ready, Service.CheckReady,
        Repository.CheckReady, body_writeJSON, HttpState.initial,
        empty_string_append]
    rw [hb]
    left
    refine ⟨Or.inr (Or.inl rfl), ?_⟩
    rintro ⟨m, _, heq⟩
    exact readyJSON_ne_errorJSON m heq
  · have hmux : (mux now req HttpState.initial).1 =
        (Handler.Example now req HttpState.initial).1 := by
      simp [mux, hm, hp]
    rw [hmux]
    rcases example_handler_cases now req HttpState.initial with ⟨r, hr, hb⟩ | hb
    · rw [hb]
      left
      constructor
      · exact Or.inr (Or.inr ⟨r, hr, by simp [HttpState.initial,
          empty_string_append]⟩)
      · rintro ⟨m, _, heq⟩
        simp only [HttpState.initial, empty_string_append] at heq
        exact errorJSON_ne_exampleJSON m r heq.symm
    · rw [hb]
      right
      constructor
      · exact ⟨"internal server error", by simp [errMsgs],
          by simp [HttpState.initial, empty_string_append]⟩
      · rintro (h1 | h1 | ⟨r, _, h1⟩) <;>
          simp only [HttpState.initial, empty_string_append] at h1
        · exact healthJSON_ne_errorJSON _ h1.symm
        · exact readyJSON_ne_errorJSON _ h1.symm
        · exact errorJSON_ne_exampleJSON _ r h1

/-- Witness for C7 at a concrete healthy request. -/
theorem claim_C7_witness :
    (isSuccessEnvelopeBody
        (mux "T" ⟨"GET", "/health", [], "r", liveCtx⟩ HttpState.initial).1.body ∧
      ¬ isErrorEnvelopeBody
        (mux "T" ⟨"GET", "/health", [], "r", liveCtx⟩ HttpState.initial).1.body) ∨
    (isErrorEnvelopeBody
        (mux "T" ⟨"GET", "/health", [], "r", liveCtx⟩ HttpState.initial).1.body ∧
      ¬ isSuccessEnvelopeBody
        (mux "T" ⟨"GET", "/health", [], "r", liveCtx⟩ HttpState.initial).1.body) :=
  claim_C7_envelope_shapes ⟨"GET", "/health", [], "r", liveCtx⟩ "T"
    ⟨rfl, Or.inl rfl⟩

/-! ## Claim C8: the example endpoint's messages -/

/-- C8: on a live context, `/api/example` without a `name` parameter
answers `"Hello, World!"` with status 200, with `name=Test` it answers
`"Hello, Test!"`, and every success response of `ProcessExample` has
`Processed` true. -/
theorem claim_C8_example_messages (c : Ctx) (now ra : String)
    (h0 : c 0 = none) (h1 : c 1 = none) (h2 : c 2 = none) :
    (mux now ⟨"GET", "/api/example", [], ra, c⟩ HttpState.initial).1.body =
      exampleJSON ⟨"Hello, World!", now, true⟩ ++ "\n" ∧
    (mux now ⟨"GET", "/api/example", [], ra, c⟩ HttpState.initial).1.status =
      some 200 ∧
    (mux now ⟨"GET", "/api/example", [("name", "Test")], ra, c⟩
        HttpState.initial).1.body =
      exampleJSON ⟨"Hello, Test!", now, true⟩ ++ "\n" ∧
    (∀ (c2 : Ctx) (now2 name : String) (r : ExampleResponse),
      (Service.ProcessExample c2 now2 name).1 = .ok r → r.Processed = true) := by
  refine ⟨?_, ?_, ?_, fun c2 now2 name r h =>
    processExample_processed c2 now2 name r h⟩
  · simp [mux, Handler.Example, Request.queryGet,
      processExample_live c now "World" h0 h1 h2, body_writeJSON,
      HttpState.initial, empty_string_append, exampleJSON]
  · simp [mux, Handler.Example, Request.queryGet,
      processExample_live c now "World" h0 h1 h2, status_writeJSON,
      HttpState.initial]
  · simp [mux, Handler.Example, Request.queryGet,
      processExample_live c now "Test" h0 h1 h2, body_writeJSON,
      HttpState.initial, empty_string_append, exampleJSON]

/-- Witness for C8 at a concrete live context. -/
theorem claim_C8_witness :
    (mux "2026-01-01T00:00:00Z" ⟨"GET", "/api/example", [], "r", liveCtx⟩
        HttpState.initial).1.body =
      exampleJSON ⟨"Hello, World!", "2026-01-01T00:00:00Z", true⟩ ++ "\n" :=
  (claim_C8_example_messages liveCtx "2026-01-01T00:00:00Z" "r"
    rfl rfl rfl).1

end GoBackend
